import Mathlib

/-!
Shallow embedding of the health tracking application (streamlit_app.py):
the three relational tables, the adherence calculator, the metrics
aggregator, the recommendation engine, the goal progress displays and
the file import and export row mappings.  Step and calorie counts are modelled as
natural numbers, following the data model of the application (non-negative
integers entered through widgets with a zero minimum); dates are modelled
as integer day numbers, so the pandas date comparisons of the source become
integer comparisons; the floating point arithmetic of the source is
modelled exactly over the rationals.
-/

/-- A row of the medications table:
id, person, name, date, time, taken, caregiver_email. -/
structure Medication where
  id : Nat
  person : String
  name : String
  date : String
  time : String
  taken : Bool
  caregiver_email : Option String
  deriving DecidableEq

/-- A row of the health_metrics table: id, person, date, steps, calories.
The date is an integer day number standing for the YYYY-MM-DD text. -/
structure Metric where
  id : Nat
  person : String
  date : Int
  steps : Nat
  calories : Nat
  deriving DecidableEq

/-- A row of the goals table: id (constrained to 1 for the singleton row),
weekly_steps_target, daily_calories_target. -/
structure Goal where
  id : Nat
  weekly_steps_target : Int
  daily_calories_target : Int
  deriving DecidableEq

/-- get_goals: SELECT weekly_steps_target, daily_calories_target FROM goals
WHERE id=1; if a row is found return its two integers, else return the
defaults (35000, 2200). -/
def get_goals (goals : List Goal) : Int × Int :=
  match goals.find? (fun g => g.id == 1) with
  | some g => (g.weekly_steps_target, g.daily_calories_target)
  | none => (35000, 2200)

/-- The scoping of medication_adherence: a Python `if person:` test, so a
None scope and an empty string both select the whole table, and any other
string selects the rows of that person (WHERE person=?). -/
def medsInScope (person : Option String) (meds : List Medication) : List Medication :=
  match person with
  | some p => if p = "" then meds else meds.filter (fun m => m.person = p)
  | none => meds

/-- medication_adherence: returns (taken_count, total_count, adherence
percent).  An empty result set yields (0, 0, 0.0); otherwise total is the
row count, taken is the sum of the 0/1 taken column (the count of taken
rows), and pct is (taken/total)*100 guarded by the redundant total > 0 test
of the source. -/
def medication_adherence (person : Option String) (meds : List Medication) :
    Nat × Nat × ℚ :=
  let df := medsInScope person meds
  if df.isEmpty then (0, 0, 0)
  else
    let total := df.length
    let taken := (df.filter (fun m => m.taken)).length
    (taken, total, if total > 0 then ((taken : ℚ) / (total : ℚ)) * 100 else 0)

/-- load_metrics: SELECT * FROM health_metrics [WHERE person=?] ORDER BY
date.  The `if person:` truthiness test of the source makes a None scope
and an empty string both select all rows. -/
def load_metrics (person : Option String) (metrics : List Metric) : List Metric :=
  let rows := match person with
    | some p => if p = "" then metrics else metrics.filter (fun m => m.person = p)
    | none => metrics
  rows.insertionSort (fun a b => a.date ≤ b.date)

/-- The trailing window filter used by the dashboard and the recommendation
engine: keep the rows whose date is at least today minus 6 days.  There is
no upper bound in the source. -/
def last7Filter (today : Int) (df : List Metric) : List Metric :=
  df.filter (fun m => today - 6 ≤ m.date)

/-- The 7-day average of one field, as computed by the source:
int(last7[field].mean()) if the window is nonempty else 0.  For
non-negative integer data the Python int() truncation of the mean is
exactly natural number division of the sum by the length. -/
def avg7 (field : Metric → Nat) (today : Int) (df : List Metric) : Nat :=
  let last7 := last7Filter today df
  if last7.isEmpty then 0 else (last7.map field).sum / last7.length

/-- The arithmetic mean of one field over a list of rows, written from the
words of the spec (average over the filtered set) for comparison with the
avg7 computation of the source. -/
def specMean (field : Metric → Nat) (l : List Metric) : ℚ :=
  ((l.map field).sum : ℚ) / (l.length : ℚ)

/-- The advice messages the recommendation engine can emit, one constructor
per f-string of the source (the prose is UI text; the person and the
formatted percentage are the data the messages carry). -/
inductive Advice where
  | stepsBelow (person : String)
  | stepsMeeting (person : String)
  | calExceed (person : String)
  | calWithin (person : String)
  | medNone (person : String)
  | medRemind (person : String) (pct : ℚ)
  | medGood (person : String) (pct : ℚ)
  | notEnoughData
  deriving DecidableEq

/-- The steps rule: if avg_steps < (weekly_goal / 7) * 0.8 emit the below
target message, else the close to or meeting goal message. -/
def stepsAdviceOf (person : String) (avg_steps : Nat) (weekly_goal : Int) : Advice :=
  if (avg_steps : ℚ) < ((weekly_goal : ℚ) / 7) * (8 / 10) then
    Advice.stepsBelow person
  else
    Advice.stepsMeeting person

/-- The calories rule: if avg_cals > daily_cal_goal * 1.1 emit the reduce
intake message, else the within range message. -/
def caloriesAdviceOf (person : String) (avg_cals : Nat) (daily_cal_goal : Int) : Advice :=
  if (avg_cals : ℚ) > (daily_cal_goal : ℚ) * (11 / 10) then
    Advice.calExceed person
  else
    Advice.calWithin person

/-- The medication rule: total == 0 emits the no schedule message, pct < 80
emits the set reminders message, anything else the good adherence
message. -/
def medicationAdviceOf (person : String) (total : Nat) (pct : ℚ) : Advice :=
  if total = 0 then Advice.medNone person
  else if pct < 80 then Advice.medRemind person pct
  else Advice.medGood person pct

/-- True exactly on the two messages of the steps rule. -/
def isStepsAdvice : Advice → Bool
  | Advice.stepsBelow _ => true
  | Advice.stepsMeeting _ => true
  | _ => false

/-- True exactly on the two messages of the calories rule. -/
def isCalAdvice : Advice → Bool
  | Advice.calExceed _ => true
  | Advice.calWithin _ => true
  | _ => false

/-- True exactly on the three messages of the medication rule. -/
def isMedAdvice : Advice → Bool
  | Advice.medNone _ => true
  | Advice.medRemind _ _ => true
  | Advice.medGood _ _ => true
  | _ => false

/-- generate_recommendations: reads the goals, loads the metrics of the
person; if the frame is nonempty appends the steps message then the
calories message, each computed from the 7-day averages; then always runs
the medication rule on the adherence triple; finally, if the list is still
empty, appends the single not enough data fallback. -/
def generate_recommendations (person : String) (metrics : List Metric)
    (meds : List Medication) (goals : List Goal) (today : Int) : List Advice :=
  let g := get_goals goals
  let df := load_metrics (some person) metrics
  let recs1 : List Advice :=
    if df.isEmpty then []
    else
      [stepsAdviceOf person (avg7 (fun m => m.steps) today df) g.1,
       caloriesAdviceOf person (avg7 (fun m => m.calories) today df) g.2]
  let a := medication_adherence (some person) meds
  let recs2 := recs1 ++ [medicationAdviceOf person a.2.1 a.2.2]
  if recs2.isEmpty then recs2 ++ [Advice.notEnoughData] else recs2

/-- The weekly step sum of the goals tab: group by the week number of the
date (pandas isocalendar, passed in here as a day-number-to-week function),
keep the rows of the maximal week present, and sum their steps, with the
empty-group guard of the source. -/
def weekSteps (isoWeek : Int → Nat) (df : List Metric) : Nat :=
  let maxWeek := (df.map (fun m => isoWeek m.date)).foldr max 0
  let this_week := df.filter (fun m => isoWeek m.date = maxWeek)
  if this_week.isEmpty then 0 else (this_week.map (fun m => m.steps)).sum

/-- The goal progress value of the goals tab (computed when the loaded
frame is nonempty): min(1.0, wk_steps / max(1, w_target)). -/
def goalsTabProgress (isoWeek : Int → Nat) (metrics : List Metric)
    (person : String) (w_target : Int) : ℚ :=
  let dfm := load_metrics (some person) metrics
  let wk_steps := weekSteps isoWeek dfm
  min 1 ((wk_steps : ℚ) / ((max 1 w_target : Int) : ℚ))

/-- The steps progress value of the dashboard: the 7-day average (0 when
the person has no rows), then min(1.0, (avg_steps * 7) / weekly_goal) when
the goal is positive and 0 otherwise. -/
def dashboardStepsProgress (metrics : List Metric) (person : String)
    (weekly_goal : Int) (today : Int) : ℚ :=
  let df_person := load_metrics (some person) metrics
  let avg_steps : Nat :=
    if df_person.isEmpty then 0 else avg7 (fun m => m.steps) today df_person
  if weekly_goal > 0 then min 1 (((avg_steps * 7 : Nat) : ℚ) / (weekly_goal : ℚ)) else 0

/-- Mark as Taken: UPDATE medications SET taken=1 WHERE id=?. -/
def markTaken (medId : Nat) (meds : List Medication) : List Medication :=
  meds.map (fun m => if m.id = medId then { m with taken := true } else m)

/-- One row element of an uploaded XML file.  The date child is modelled as
present and already normalized to a day number; the steps and calories
children carry their parsed integer when the element is present and none
when the element is missing (findtext returns None for a missing child,
and the data model makes the present values non-negative integers). -/
structure XmlRow where
  dateText : Int
  stepsText : Option Nat
  caloriesText : Option Nat
  deriving DecidableEq

/-- A successfully parsed XML row. -/
structure XmlParsedRow where
  date : Int
  steps : Nat
  calories : Nat
  deriving DecidableEq

/-- Building one dict of the row loop: int(row.findtext("steps")) and
int(row.findtext("calories")) raise a TypeError when the child element is
missing, which aborts the whole try block. -/
def parseXmlRow (r : XmlRow) : Except String XmlParsedRow :=
  match r.stepsText with
  | none => Except.error "int() argument cannot be NoneType: missing steps"
  | some s =>
    match r.caloriesText with
    | none => Except.error "int() argument cannot be NoneType: missing calories"
    | some c => Except.ok ⟨r.dateText, s, c⟩

/-- The row-collection loop of the XML path: the first failing row aborts
the whole parse, discarding every row already collected. -/
def parseXmlRows : List XmlRow → Except String (List XmlParsedRow)
  | [] => Except.ok []
  | r :: rs =>
    match parseXmlRow r with
    | Except.error e => Except.error e
    | Except.ok pr =>
      match parseXmlRows rs with
      | Except.error e => Except.error e
      | Except.ok prs => Except.ok (pr :: prs)

/-- The health_metrics table after an XML upload: a parse error (or an
empty parsed frame, reported as a format error) leaves the table untouched;
otherwise every parsed row is inserted for the active person with
autoincremented ids. -/
def xmlImportTable (rows : List XmlRow) (person : String) (table : List Metric)
    (nextId : Nat) : List Metric :=
  match parseXmlRows rows with
  | Except.error _ => table
  | Except.ok rs =>
    if rs.isEmpty then table
    else table ++ rs.enum.map (fun p =>
      { id := nextId + p.1, person := person, date := p.2.date,
        steps := p.2.steps, calories := p.2.calories })

/-- One line of the metrics CSV dump: the full column set of the table. -/
structure CsvRow where
  id : Nat
  person : String
  date : Int
  steps : Nat
  calories : Nat
  deriving DecidableEq

/-- Export Health Metrics CSV: SELECT * FROM health_metrics serialized row
by row with every column. -/
def exportMetricsCsv (table : List Metric) : List CsvRow :=
  table.map (fun m =>
    { id := m.id, person := m.person, date := m.date,
      steps := m.steps, calories := m.calories })

/-- Import CSV to DB: one INSERT per row of the uploaded frame, taking the
date, steps and calories columns, attributing every row to the active
person, with autoincremented ids; existing rows are never touched. -/
def importCsv (rows : List CsvRow) (person : String) (table : List Metric)
    (nextId : Nat) : List Metric :=
  table ++ rows.enum.map (fun p =>
    { id := nextId + p.1, person := person, date := p.2.date,
      steps := p.2.steps, calories := p.2.calories })

/-- Concrete medications table for the adherence scenario: Aspirin not
taken and Vitamin taken, both for Self. -/
def c1Meds : List Medication :=
  [{ id := 1, person := "Self", name := "Aspirin", date := "2025-01-01", time := "08:30",
     taken := false, caregiver_email := none },
   { id := 2, person := "Self", name := "Vitamin", date := "2025-01-01", time := "08:30",
     taken := true, caregiver_email := none }]

/-- Concrete metrics table holding one row with 500 steps. -/
def c2Table : List Metric :=
  [{ id := 1, person := "Self", date := 10, steps := 500, calories := 0 }]

/-- A concrete day-number-to-week function for evaluating the goals tab. -/
def c2IsoWeek : Int → Nat := fun d => d.toNat

/-- Concrete metrics table with two same-day rows whose step counts have a
non-integer mean. -/
def c3Table : List Metric :=
  [{ id := 1, person := "Self", date := 10, steps := 1, calories := 0 },
   { id := 2, person := "Self", date := 10, steps := 2, calories := 0 }]

/-- Concrete XML upload: a fully valid row followed by a row whose
calories element is missing. -/
def c7Rows : List XmlRow :=
  [{ dateText := 9, stepsText := some 1000, caloriesText := some 1800 },
   { dateText := 10, stepsText := some 1200, caloriesText := none }]

/-- Concrete metrics table present in the store before the XML upload. -/
def c7Table : List Metric :=
  [{ id := 1, person := "Self", date := 5, steps := 100, calories := 200 }]

/-- Concrete metrics table for the CSV round trip. -/
def c8Table : List Metric :=
  [{ id := 1, person := "Self", date := 5, steps := 100, calories := 200 },
   { id := 2, person := "Mom", date := 6, steps := 900, calories := 1500 }]

/-- Concrete medications table for the mark-as-taken no-op check. -/
def c9Meds : List Medication :=
  [{ id := 1, person := "Self", name := "Aspirin", date := "2025-01-01", time := "08:30",
     taken := false, caregiver_email := none },
   { id := 2, person := "Mom", name := "Statin", date := "2025-01-02", time := "09:00",
     taken := true, caregiver_email := some "care@example.com" }]

/-- The goals table with the singleton row absent: the id=1 CHECK makes the
empty table the only such state. -/
def c10Goals : List Goal := []

/-- A list whose isEmpty flag is false has positive length. -/
theorem length_pos_of_not_isEmpty {α : Type} {l : List α} (h : ¬ l.isEmpty = true) :
    0 < l.length := by
  rcases l with _ | ⟨a, t⟩
  · simp [List.isEmpty] at h
  · simp

/-- Claim C1: for every medication table and every scope, the adherence
triple has its percentage inside [0, 100]; a zero total yields exactly
(0, 0, 0.0); and the two-medication scenario (Aspirin not taken, Vitamin
taken) for Self evaluates to (1, 2, 50.0). -/
theorem c1_adherence (person : Option String) (meds : List Medication) :
    0 ≤ (medication_adherence person meds).2.2
    ∧ (medication_adherence person meds).2.2 ≤ 100
    ∧ ((medication_adherence person meds).2.1 = 0 →
        medication_adherence person meds = (0, 0, 0))
    ∧ medication_adherence (some "Self") c1Meds = (1, 2, 50) := by
  have scenario : medication_adherence (some "Self") c1Meds = (1, 2, 50) := by
    have h1 : medsInScope (some "Self") c1Meds = c1Meds := by decide
    simp only [medication_adherence, h1]
    norm_num [c1Meds]
  refine ⟨?_, ?_, ?_, scenario⟩ <;> unfold medication_adherence <;>
    by_cases h : (medsInScope person meds).isEmpty
  · simp [h]
  · simp only [h, Bool.false_eq_true, if_false]
    have hlen := length_pos_of_not_isEmpty h
    simp only [hlen, if_pos]
    positivity
  · simp [h]
  · simp only [h, Bool.false_eq_true, if_false]
    have hlen := length_pos_of_not_isEmpty h
    have htt : ((medsInScope person meds).filter (fun m => m.taken)).length
        ≤ (medsInScope person meds).length := List.length_filter_le _ _
    simp only [hlen, if_pos]
    have hdiv : (((medsInScope person meds).filter (fun m => m.taken)).length : ℚ)
        / ((medsInScope person meds).length : ℚ) ≤ 1 :=
      div_le_one_of_le₀ (by exact_mod_cast htt) (by positivity)
    calc (((medsInScope person meds).filter (fun m => m.taken)).length : ℚ)
          / ((medsInScope person meds).length : ℚ) * 100
        ≤ 1 * 100 := mul_le_mul_of_nonneg_right hdiv (by norm_num)
      _ = 100 := one_mul _
  · simp [h]
  · simp only [h, Bool.false_eq_true, if_false]
    have hlen := length_pos_of_not_isEmpty h
    intro hc
    exfalso
    have hdl : (medsInScope person meds).length = 0 := hc
    omega

/-- Claim C1 witness: an empty scope evaluates to exactly (0, 0, 0.0). -/
theorem c1_adherence_witness :
    (medication_adherence (some "Nobody") c1Meds).2.1 = 0
    ∧ medication_adherence (some "Nobody") c1Meds = (0, 0, 0) :=
  ⟨by decide, (c1_adherence (some "Nobody") c1Meds).2.2.1 (by decide)⟩

/-- Claim C2 counterexample: with one 500-step row this week and a weekly
target of 0, the goals tab progress value is 1, not the 0 the claim
requires for a zero target (the source divides by max(1, target), so a
zero target behaves like a target of 1). -/
theorem c2_zero_target_counterexample :
    goalsTabProgress c2IsoWeek c2Table "Self" 0 = 1
    ∧ (1 : ℚ) ≠ 0 := by
  constructor
  · have h : weekSteps c2IsoWeek (load_metrics (some "Self") c2Table) = 500 := by decide
    simp only [goalsTabProgress, h]
    norm_num
  · norm_num

/-- Claim C2 amended: for a positive weekly target the goals tab progress
equals the weekly step sum over the target clamped to [0, 1]; no division
error can occur for a zero target, but then the goals tab shows
min(1, weekly step sum) while the dashboard steps progress shows 0. -/
theorem c2_goal_progress (isoWeek : Int → Nat) (metrics : List Metric)
    (person : String) (w_target : Int) (today : Int) :
    (0 < w_target →
      goalsTabProgress isoWeek metrics person w_target
          = min 1 ((weekSteps isoWeek (load_metrics (some person) metrics) : ℚ)
              / (w_target : ℚ))
        ∧ 0 ≤ goalsTabProgress isoWeek metrics person w_target
        ∧ goalsTabProgress isoWeek metrics person w_target ≤ 1)
    ∧ (w_target = 0 →
      goalsTabProgress isoWeek metrics person w_target
          = min 1 (weekSteps isoWeek (load_metrics (some person) metrics) : ℚ)
        ∧ dashboardStepsProgress metrics person w_target today = 0) := by
  constructor
  · intro hpos
    have hmax : max 1 w_target = w_target := max_eq_right (by omega)
    refine ⟨by simp only [goalsTabProgress, hmax], ?_, ?_⟩
    · simp only [goalsTabProgress, hmax]
      refine le_min (by norm_num) ?_
      positivity
    · simp only [goalsTabProgress, hmax]
      exact min_le_left _ _
  · intro h0
    subst h0
    constructor
    · simp only [goalsTabProgress]
      norm_num
    · simp only [dashboardStepsProgress]
      norm_num

/-- Claim C2 witness: the amended characterisation evaluated at a target of
5 and at a target of 0. -/
theorem c2_goal_progress_witness :
    (goalsTabProgress c2IsoWeek c2Table "Self" 5
        = min 1 ((weekSteps c2IsoWeek (load_metrics (some "Self") c2Table) : ℚ) / (5 : ℚ)))
    ∧ dashboardStepsProgress c2Table "Self" 0 10 = 0 :=
  ⟨((c2_goal_progress c2IsoWeek c2Table "Self" 5 10).1 (by norm_num)).1,
   ((c2_goal_progress c2IsoWeek c2Table "Self" 0 10).2 rfl).2⟩

/-- The nonempty-window case of avg7 is the floor of the arithmetic mean:
natural division of the sum by the length is the floor of the rational
mean. -/
theorem avg7_eq_floor (field : Metric → Nat) (today : Int) (df : List Metric)
    (h : ¬ (last7Filter today df).isEmpty = true) :
    avg7 field today df = ⌊specMean field (last7Filter today df)⌋₊ := by
  unfold avg7 specMean
  simp only [h, Bool.false_eq_true, if_false]
  rw [Nat.floor_div_nat, Nat.floor_natCast]

/-- Claim C3 counterexample: two rows of the window with 1 and 2 steps give
a computed average of 1 (the int() truncation of the source), while the
arithmetic mean the claim asserts is 3/2. -/
theorem c3_truncation_counterexample :
    avg7 (fun m => m.steps) 10 (load_metrics (some "Self") c3Table) = 1
    ∧ specMean (fun m => m.steps) (last7Filter 10 (load_metrics (some "Self") c3Table)) = 3 / 2
    ∧ ((1 : ℚ) ≠ 3 / 2) := by
  refine ⟨by decide, ?_, by norm_num⟩
  have h2 : ((last7Filter 10 (load_metrics (some "Self") c3Table)).map
      (fun m => m.steps)).sum = 3 := by decide
  have h3 : (last7Filter 10 (load_metrics (some "Self") c3Table)).length = 2 := by decide
  simp only [specMean, h2, h3]
  norm_num

/-- Claim C3 amended: the window is exactly the rows with date at least
today minus 6; on a nonempty window the computed 7-day averages of steps
and calories are the floor of the arithmetic means over that window; on an
empty window both averages are 0. -/
theorem c3_rolling_average (person : String) (metrics : List Metric) (today : Int) :
    (last7Filter today (load_metrics (some person) metrics)
        = (load_metrics (some person) metrics).filter (fun m => today - 6 ≤ m.date))
    ∧ (¬ (last7Filter today (load_metrics (some person) metrics)).isEmpty = true →
        avg7 (fun m => m.steps) today (load_metrics (some person) metrics)
            = ⌊specMean (fun m => m.steps)
                (last7Filter today (load_metrics (some person) metrics))⌋₊
        ∧ avg7 (fun m => m.calories) today (load_metrics (some person) metrics)
            = ⌊specMean (fun m => m.calories)
                (last7Filter today (load_metrics (some person) metrics))⌋₊)
    ∧ ((last7Filter today (load_metrics (some person) metrics)).isEmpty = true →
        avg7 (fun m => m.steps) today (load_metrics (some person) metrics) = 0
        ∧ avg7 (fun m => m.calories) today (load_metrics (some person) metrics) = 0) := by
  refine ⟨rfl, ?_, ?_⟩
  · intro h
    exact ⟨avg7_eq_floor _ _ _ h, avg7_eq_floor _ _ _ h⟩
  · intro h
    constructor <;> · unfold avg7; simp only [h, if_true, if_pos]

/-- Claim C3 witness: the amended statement evaluated on a nonempty
window. -/
theorem c3_rolling_average_witness :
    avg7 (fun m => m.steps) 10 (load_metrics (some "Self") c3Table)
        = ⌊specMean (fun m => m.steps)
            (last7Filter 10 (load_metrics (some "Self") c3Table))⌋₊
    ∧ avg7 (fun m => m.calories) 10 (load_metrics (some "Self") c3Table)
        = ⌊specMean (fun m => m.calories)
            (last7Filter 10 (load_metrics (some "Self") c3Table))⌋₊ :=
  (c3_rolling_average "Self" c3Table 10).2.1 (by decide)

/-- Claim C4 counterexample: with a daily target of 2200 an average of 2421
is strictly above 1.1 times the target (2420), so the calories rule does
emit the exceeds message and does not emit the within-range message,
contrary to the claim. -/
theorem c4_boundary_counterexample :
    caloriesAdviceOf "Self" 2421 2200 = Advice.calExceed "Self"
    ∧ caloriesAdviceOf "Self" 2421 2200 ≠ Advice.calWithin "Self" := by
  have h : caloriesAdviceOf "Self" 2421 2200 = Advice.calExceed "Self" := by
    unfold caloriesAdviceOf
    rw [if_pos (by norm_num)]
  exact ⟨h, by simp [h]⟩

/-- Claim C4 amended: the boundary of the strict comparison at target 2200
is 2420 = 1.1 times 2200, not 2421: an average of exactly 2420 does not
emit the exceeds message and emits the within-range message, and the
exceeds message fires exactly when the average is strictly above 2420. -/
theorem c4_calories_boundary (person : String) :
    ((2420 : ℚ) = (2200 : ℚ) * (11 / 10))
    ∧ caloriesAdviceOf person 2420 2200 = Advice.calWithin person
    ∧ (∀ avg : Nat, caloriesAdviceOf person avg 2200 = Advice.calExceed person
        ↔ (2420 : ℚ) < (avg : ℚ)) := by
  refine ⟨by norm_num, ?_, ?_⟩
  · unfold caloriesAdviceOf
    rw [if_neg (by norm_num)]
  · intro avg
    unfold caloriesAdviceOf
    rw [show (((2200 : Int) : ℚ)) * (11 / 10) = 2420 by norm_num]
    by_cases h : (2420 : ℚ) < (avg : ℚ)
    · rw [if_pos h]
      simp [h]
    · rw [if_neg h]
      simp [h]

/-- Claim C4 witness: the amended boundary behaviour at the concrete
average 2420. -/
theorem c4_calories_boundary_witness :
    caloriesAdviceOf "Self" 2420 2200 = Advice.calWithin "Self" :=
  (c4_calories_boundary "Self").2.1

/-- Claim C5: with a weekly target of 35000 the per-day threshold of the
steps rule is 0.8 times 35000/7 = 4000; an average of exactly 4000 is not
strictly below it, so the meeting-goal message is emitted, and in general
the below-target message fires exactly on the strict comparison. -/
theorem c5_steps_boundary (person : String) :
    stepsAdviceOf person 4000 35000 = Advice.stepsMeeting person
    ∧ (((35000 : ℚ) / 7) * (8 / 10) = 4000)
    ∧ (∀ (avg : Nat) (goal : Int),
        stepsAdviceOf person avg goal = Advice.stepsBelow person
          ↔ (avg : ℚ) < ((goal : ℚ) / 7) * (8 / 10)) := by
  refine ⟨?_, by norm_num, ?_⟩
  · unfold stepsAdviceOf
    rw [if_neg (by norm_num)]
  · intro avg goal
    unfold stepsAdviceOf
    by_cases h : (avg : ℚ) < ((goal : ℚ) / 7) * (8 / 10)
    · rw [if_pos h]
      simp [h]
    · rw [if_neg h]
      simp [h]

/-- Claim C5 witness: the steps rule at the concrete boundary average
4000 with the weekly target 35000. -/
theorem c5_steps_boundary_witness :
    stepsAdviceOf "Self" 4000 35000 = Advice.stepsMeeting "Self" :=
  (c5_steps_boundary "Self").1

/-- The medication rule always produces a medication message. -/
theorem isMed_medicationAdviceOf (p : String) (total : Nat) (pct : ℚ) :
    isMedAdvice (medicationAdviceOf p total pct) = true := by
  unfold medicationAdviceOf
  split
  · rfl
  · split <;> rfl

/-- The steps rule always produces a steps message. -/
theorem isSteps_stepsAdviceOf (p : String) (avg : Nat) (goal : Int) :
    isStepsAdvice (stepsAdviceOf p avg goal) = true := by
  unfold stepsAdviceOf
  split <;> rfl

/-- The calories rule always produces a calories message. -/
theorem isCal_caloriesAdviceOf (p : String) (avg : Nat) (goal : Int) :
    isCalAdvice (caloriesAdviceOf p avg goal) = true := by
  unfold caloriesAdviceOf
  split <;> rfl

/-- A medication message is not the fallback message. -/
theorem med_ne_notEnough {a : Advice} (h : isMedAdvice a = true) :
    Advice.notEnoughData ≠ a := by
  cases a <;> simp_all [isMedAdvice]

/-- A steps message is not the fallback message. -/
theorem steps_ne_notEnough {a : Advice} (h : isStepsAdvice a = true) :
    Advice.notEnoughData ≠ a := by
  cases a <;> simp_all [isStepsAdvice]

/-- A calories message is not the fallback message. -/
theorem cal_ne_notEnough {a : Advice} (h : isCalAdvice a = true) :
    Advice.notEnoughData ≠ a := by
  cases a <;> simp_all [isCalAdvice]

/-- If the person has no metric rows the engine emits exactly the
medication message. -/
theorem generate_recommendations_of_no_metrics (p : String) (M : List Metric)
    (D : List Medication) (G : List Goal) (t : Int)
    (h : load_metrics (some p) M = []) :
    generate_recommendations p M D G t
      = [medicationAdviceOf p (medication_adherence (some p) D).2.1
          (medication_adherence (some p) D).2.2] := by
  simp only [generate_recommendations, h]
  simp

/-- If the person has metric rows the engine emits the steps message, the
calories message and the medication message, in that order. -/
theorem generate_recommendations_of_metrics (p : String) (M : List Metric)
    (D : List Medication) (G : List Goal) (t : Int)
    (h : ¬ load_metrics (some p) M = []) :
    generate_recommendations p M D G t
      = [stepsAdviceOf p (avg7 (fun m => m.steps) t (load_metrics (some p) M))
            (get_goals G).1,

          caloriesAdviceOf p (avg7 (fun m => m.calories) t (load_metrics (some p) M))
            (get_goals G).2,
          medicationAdviceOf p (medication_adherence (some p) D).2.1
            (medication_adherence (some p) D).2.2] := by
  have hb : (load_metrics (some p) M).isEmpty = false := by
    rcases hl : load_metrics (some p) M with _ | ⟨a, l⟩
    · exact absurd hl h
    · rfl
  simp only [generate_recommendations, hb]
  simp

/-- Claim C6: the engine produces messages in the fixed order steps,
calories, medication; with no metric rows for the person the steps and
calories rules are skipped while the medication rule still runs; the
fallback message can only appear in an otherwise empty list, and since the
medication rule always emits, the fallback never appears. -/
theorem c6_recommendation_order (p : String) (M : List Metric)
    (D : List Medication) (G : List Goal) (t : Int) :
    ∃ m : Advice, isMedAdvice m = true
      ∧ Advice.notEnoughData ∉ generate_recommendations p M D G t
      ∧ ((load_metrics (some p) M ≠ []
            ∧ ∃ s c : Advice, isStepsAdvice s = true ∧ isCalAdvice c = true
              ∧ generate_recommendations p M D G t = [s, c, m])
        ∨ (load_metrics (some p) M = []
            ∧ generate_recommendations p M D G t = [m])) := by
  refine ⟨medicationAdviceOf p (medication_adherence (some p) D).2.1
      (medication_adherence (some p) D).2.2, isMed_medicationAdviceOf _ _ _, ?_, ?_⟩
  · by_cases h : load_metrics (some p) M = []
    · rw [generate_recommendations_of_no_metrics p M D G t h]
      intro hmem
      rcases List.mem_singleton.mp hmem with heq
      exact med_ne_notEnough (isMed_medicationAdviceOf _ _ _) heq
    · rw [generate_recommendations_of_metrics p M D G t h]
      intro hmem
      rcases List.mem_cons.mp hmem with heq | hmem2
      · exact steps_ne_notEnough (isSteps_stepsAdviceOf _ _ _) heq
      rcases List.mem_cons.mp hmem2 with heq | hmem3
      · exact cal_ne_notEnough (isCal_caloriesAdviceOf _ _ _) heq
      rcases List.mem_singleton.mp hmem3 with heq
      exact med_ne_notEnough (isMed_medicationAdviceOf _ _ _) heq
  · by_cases h : load_metrics (some p) M = []
    · exact Or.inr ⟨h, generate_recommendations_of_no_metrics p M D G t h⟩
    · exact Or.inl ⟨h, _, _, isSteps_stepsAdviceOf _ _ _, isCal_caloriesAdviceOf _ _ _,
        generate_recommendations_of_metrics p M D G t h⟩

/-- Claim C6 witness: the structure theorem instantiated at a person with
no metric rows and an empty medication table. -/
theorem c6_recommendation_order_witness :
    ∃ m : Advice, isMedAdvice m = true
      ∧ Advice.notEnoughData ∉ generate_recommendations "Self" [] [] [] 0
      ∧ ((load_metrics (some "Self") [] ≠ []
            ∧ ∃ s c : Advice, isStepsAdvice s = true ∧ isCalAdvice c = true
              ∧ generate_recommendations "Self" [] [] [] 0 = [s, c, m])
        ∨ (load_metrics (some "Self") [] = []
            ∧ generate_recommendations "Self" [] [] [] 0 = [m])) :=
  c6_recommendation_order "Self" [] [] [] 0

/-- A row whose calories element is missing makes the whole XML row
collection fail with an error. -/
theorem parseXmlRows_error_of_missing (rows : List XmlRow)
    (h : ∃ r ∈ rows, r.caloriesText = none) :
    ∃ e, parseXmlRows rows = Except.error e := by
  induction rows with
  | nil =>
    rcases h with ⟨r, hr, _⟩
    cases hr
  | cons a l ih =>
    rcases hpa : parseXmlRow a with e | pr
    · exact ⟨e, by simp [parseXmlRows, hpa]⟩
    · have ha : a.caloriesText ≠ none := by
        intro hn
        unfold parseXmlRow at hpa
        rcases hs : a.stepsText with _ | s
        · rw [hs] at hpa
          simp at hpa
        · rw [hs, hn] at hpa
          simp at hpa
      rcases h with ⟨r, hr, hnone⟩
      rcases List.mem_cons.mp hr with heq | hmem
      · subst heq
        exact absurd hnone ha
      · rcases ih ⟨r, hmem, hnone⟩ with ⟨e, he⟩
        exact ⟨e, by simp [parseXmlRows, hpa, he]⟩

/-- Claim C7: an XML file containing a row with a missing calories element
fails the whole import with an error and inserts zero rows: the metrics
table is left exactly as it was, with no partial import of the valid rows
that precede the bad one. -/
theorem c7_xml_atomic_failure (rows : List XmlRow) (person : String)
    (table : List Metric) (nextId : Nat)
    (h : ∃ r ∈ rows, r.caloriesText = none) :
    (∃ e, parseXmlRows rows = Except.error e)
    ∧ xmlImportTable rows person table nextId = table := by
  rcases parseXmlRows_error_of_missing rows h with ⟨e, he⟩
  exact ⟨⟨e, he⟩, by simp [xmlImportTable, he]⟩

/-- Claim C7 witness: a valid row followed by a row missing calories leaves
the concrete table untouched. -/
theorem c7_xml_atomic_failure_witness :
    (∃ r ∈ c7Rows, r.caloriesText = none)
    ∧ xmlImportTable c7Rows "Self" c7Table 2 = c7Table :=
  ⟨by decide, (c7_xml_atomic_failure c7Rows "Self" c7Table 2 (by decide)).2⟩

/-- Claim C8: exporting the metrics table to CSV and importing that dump
back yields exactly double the row count, and the original rows are still
there unchanged at the front: the import only appends. -/
theorem c8_export_import_doubles (table : List Metric) (person : String) (nextId : Nat) :
    (importCsv (exportMetricsCsv table) person table nextId).length = 2 * table.length
    ∧ (importCsv (exportMetricsCsv table) person table nextId).take table.length = table := by
  constructor
  · simp only [importCsv, exportMetricsCsv, List.length_append, List.length_map,
      List.enum_length]
    omega
  · simp only [importCsv]
    exact List.take_left table _

/-- Claim C8 witness: the round trip on a concrete two-row table. -/
theorem c8_export_import_doubles_witness :
    (importCsv (exportMetricsCsv c8Table) "Self" c8Table 3).length = 2 * c8Table.length
    ∧ (importCsv (exportMetricsCsv c8Table) "Self" c8Table 3).take c8Table.length = c8Table :=
  c8_export_import_doubles c8Table "Self" 3

/-- Claim C9: marking an id that is not present in the medications table is
a no-op: every row, with all of its fields, is unchanged. -/
theorem c9_mark_taken_noop (medId : Nat) (meds : List Medication)
    (h : ∀ m ∈ meds, m.id ≠ medId) :
    markTaken medId meds = meds := by
  unfold markTaken
  induction meds with
  | nil => rfl
  | cons a l ih =>
    rw [List.map_cons, if_neg (h a (List.mem_cons_self a l)),
      ih (fun m hm => h m (List.mem_cons_of_mem a hm))]

/-- Claim C9 witness: id 99 is absent from the concrete table and the
update leaves it untouched. -/
theorem c9_mark_taken_noop_witness :
    (∀ m ∈ c9Meds, m.id ≠ 99) ∧ markTaken 99 c9Meds = c9Meds :=
  ⟨by decide, c9_mark_taken_noop 99 c9Meds (by decide)⟩

/-- Claim C10: whenever the goals singleton row with id 1 is absent,
get_goals returns the defaults (35000, 2200) instead of failing. -/
theorem c10_goal_defaults (goals : List Goal) (h : ∀ g ∈ goals, g.id ≠ 1) :
    get_goals goals = (35000, 2200) := by
  unfold get_goals
  have hf : goals.find? (fun g => g.id == 1) = none := by
    rw [List.find?_eq_none]
    intro g hg
    simp [h g hg]
  rw [hf]

/-- Claim C10 witness: the only table without the id-1 row that the CHECK
constraint admits is the empty one, and it yields the defaults. -/
theorem c10_goal_defaults_witness :
    (∀ g ∈ c10Goals, g.id ≠ 1) ∧ get_goals c10Goals = (35000, 2200) :=
  ⟨by decide, c10_goal_defaults c10Goals (by decide)⟩
